import Mathlib

/-!
Shallow embedding of the wakeword listener (dmweis/wakeword).

Source files embedded here:
  * `src/listener.rs`  — the recording state machine (`Listener`, `RecordingStatus`,
    `ActiveRecording`, the per-frame loop body and its helpers);
  * `src/wakeword_validation.rs` — the time-windowed retention buffer (`AudioBuffer`);
  * `src/messages.rs` — the event / sample data model;
  * `src/main.rs` — the constants `HUMAN_SPEECH_DETECTION_TIMEOUT` and
    `HUMAN_SPEECH_DETECTION_PROBABILITY_THRESHOLD`.

Modelling conventions:
  * `chrono::DateTime<Utc>` timestamps are `Int` milliseconds (`UtcTime`); the wall
    clock may in principle jump, so these are signed and unconstrained.
  * `std::time::Instant` values are `Nat` milliseconds on a monotonic clock
    (`MonoTime`); `a.elapsed()` with a current instant `now` is the saturating
    subtraction `now - a`, matching both `Instant::elapsed` (which saturates to
    zero) and `checked_duration_since(..).unwrap_or_default()`.
  * All `Instant::now()` / `Utc::now()` reads inside a single loop iteration are
    identified with the iteration's `instant_now` / `ts_now` read at its start.
  * The external wake-word classifier (porcupine) and voice-activity estimator
    (cobra) are environment capabilities; their per-frame outputs are inputs of
    the step function (`keyword_index`, `voice_probability`), following the
    interface contracts in the specification.
  * Voice probabilities are `ℚ` instead of `f32`; the only operation performed on
    them is an order comparison against the fixed threshold.
  * `tokio::sync::mpsc::Sender::try_send` (and the std `sync_channel` used by the
    LED commander) is modelled by `BoundedChannel.trySend`: error `Closed` when
    the receiver is gone, error `Full` (value dropped) at capacity, otherwise the
    value is enqueued.
  * The `Listener` carries two ghost fields, `emitted_events` and
    `emitted_samples`, that log every value handed to `try_send` whether or not
    the channel accepted it.  They are pure instrumentation used only by the
    specifications; no code path reads them.
-/

/-- Milliseconds since the Unix epoch on the wall clock (`chrono::DateTime<Utc>`). -/
abbrev UtcTime := Int

/-- Milliseconds on the monotonic clock (`std::time::Instant`). -/
abbrev MonoTime := Nat

/-- `const HUMAN_SPEECH_DETECTION_TIMEOUT: Duration = Duration::from_secs(3);` (main.rs). -/
def HUMAN_SPEECH_DETECTION_TIMEOUT : Nat := 3000

/-- `const HUMAN_SPEECH_DETECTION_PROBABILITY_THRESHOLD: f32 = 0.5;` (main.rs).
The rational one half, given in normalized form so that comparisons against it
evaluate by kernel reduction. -/
def HUMAN_SPEECH_DETECTION_PROBABILITY_THRESHOLD : ℚ :=
  ⟨1, 2, by norm_num, Nat.coprime_one_left 2⟩

/-- `const AUDIO_SAMPLE_RETENTION_PERIOD: Duration = Duration::from_secs(5);`
(wakeword_validation.rs). -/
def AUDIO_SAMPLE_RETENTION_PERIOD : Nat := 5000

/-- Modelled from the spec: the constant `RECORDING_INITIAL_TIMEOUT` is imported by
`listener.rs` from the crate root, which is not among the available sources.  The
specification calls it "an initial grace period" and the comment at its use site in
`listener.rs` reads "if we are in initial 3 seconds do not time out", so it is
modelled as a (nonnegative) wall-clock duration of 3 seconds. -/
def RECORDING_INITIAL_TIMEOUT : Int := 3000

/-- `messages.rs`: `WakeWordDetection`. -/
structure WakeWordDetection where
  wake_word : String
  timestamp : UtcTime
deriving DecidableEq, Repr

/-- `messages.rs`: `DetectionEndReason`. -/
inductive DetectionEndReason where
  | Finished
  | Dismissed
  | PrivacyModeActivated
  | ValidationFailed
deriving DecidableEq, Repr

/-- `messages.rs`: `WakeWordDetectionEnd`. -/
structure WakeWordDetectionEnd where
  wake_word : String
  timestamp : UtcTime
  reason : DetectionEndReason
deriving DecidableEq, Repr

/-- `messages.rs`: `VoiceProbability`. -/
structure VoiceProbability where
  probability : ℚ
  timestamp : UtcTime
  time_since_last_human_ms : Nat
  currently_recording : Bool
deriving DecidableEq, Repr

/-- `messages.rs`: `AudioSample` — the Completed Audio Sample handed to the sample sink. -/
structure AudioSample where
  data : List Int
  wake_word : String
  sample_rate : Nat
  timestamp : UtcTime
deriving DecidableEq, Repr

/-- `listener.rs`: `AudioDetectorData` — the lifecycle events. -/
inductive AudioDetectorData where
  | VoiceProbability (v : VoiceProbability)
  | RecordingStarted (d : WakeWordDetection)
  | WakeWordDetected (d : WakeWordDetection)
  | RecordingEnd (e : WakeWordDetectionEnd)
deriving DecidableEq, Repr

/-- `wakeword_validation.rs`: the private `struct AudioSample { sample, time }` held
by the retention buffer (renamed to avoid the clash with the message type). -/
structure BufferedSample where
  sample : List Int
  time : MonoTime
deriving DecidableEq, Repr

/-- `wakeword_validation.rs`: `struct AudioBuffer { samples: VecDeque<AudioSample> }`.
The deque front is the list head. -/
structure AudioBuffer where
  samples : List BufferedSample
deriving DecidableEq, Repr

/-- `AudioBuffer::default()` — the empty buffer. -/
def AudioBuffer.empty : AudioBuffer := ⟨[]⟩

/-- `AudioBuffer::insert`: pop from the front while the front entry is older than the
retention period relative to `now` (`checked_duration_since(..).unwrap_or_default()`
is saturating subtraction), then push the new sample with capture instant `now`. -/
def AudioBuffer.insert (b : AudioBuffer) (now : MonoTime) (sample : List Int) : AudioBuffer :=
  ⟨(b.samples.dropWhile fun s => now - s.time > AUDIO_SAMPLE_RETENTION_PERIOD)
      ++ [⟨sample, now⟩]⟩

/-- A sequence of `insert` calls, oldest first. -/
def AudioBuffer.insertAll (b : AudioBuffer) (ops : List (MonoTime × List Int)) : AudioBuffer :=
  ops.foldl (fun b op => b.insert op.1 op.2) b

/-- `tokio::sync::mpsc::error::TrySendError` (payload dropped). -/
inductive TrySendError where
  | Full
  | Closed
deriving DecidableEq, Repr

/-- A bounded mpsc sender endpoint: `tokio::sync::mpsc::Sender` (and the std
`SyncSender` used for LED commands).  `closed` means the receiver was dropped. -/
structure BoundedChannel (α : Type) where
  closed : Bool
  capacity : Nat
  queue : List α
deriving DecidableEq, Repr

/-- `try_send`: fails with `Closed` when the receiver is gone, with `Full` (dropping
the value) when the queue is at capacity, otherwise enqueues the value. -/
def BoundedChannel.trySend {α : Type} (c : BoundedChannel α) (a : α) :
    BoundedChannel α × Option TrySendError :=
  if c.closed then (c, some TrySendError.Closed)
  else if c.capacity ≤ c.queue.length then (c, some TrySendError.Full)
  else ({ c with queue := c.queue ++ [a] }, none)

/-- `respeaker.rs`: `SpeakerCommand` (the LED ring command set used by the listener). -/
inductive SpeakerCommand where
  | Off
  | Listen
  | Think
deriving DecidableEq, Repr

/-- `listener.rs`: `ActiveRecording`. -/
structure ActiveRecording where
  recording_triggering_timestamp : UtcTime
  recording_triggering_wake_word : String
deriving DecidableEq, Repr

/-- `listener.rs`: `RecordingStatus`. -/
inductive RecordingStatus where
  | NotActive
  | Active (a : ActiveRecording)
deriving DecidableEq, Repr

/-- `RecordingStatus::active`. -/
def RecordingStatus.active : RecordingStatus → Bool
  | RecordingStatus.NotActive => false
  | RecordingStatus.Active _ => true

/-- `RecordingStatus::is_in_recording_initial_timeout`:
`delta = recording_triggering_timestamp.signed_duration_since(ts_now)` (that is,
trigger − now), and the returned flag is `delta > RECORDING_INITIAL_TIMEOUT`. -/
def RecordingStatus.is_in_recording_initial_timeout (s : RecordingStatus)
    (ts_now : UtcTime) : Option Bool :=
  match s with
  | RecordingStatus.Active status =>
      some (decide (status.recording_triggering_timestamp - ts_now > RECORDING_INITIAL_TIMEOUT))
  | RecordingStatus.NotActive => none

/-- `listener.rs`: the `Listener` state (the fields touched by the loop; the handles
to porcupine/cobra/recorder are environment capabilities and appear as step inputs;
`sample_rate` stands for `porcupine.sample_rate()`).  `emitted_events` and
`emitted_samples` are ghost logs of every value handed to `try_send`. -/
structure Listener where
  selected_keywords : List String
  dismiss_keyword : Option String
  sample_rate : Nat
  audio_sample_sender : BoundedChannel AudioSample
  audio_detector_data : BoundedChannel AudioDetectorData
  last_human_speech_detected : MonoTime
  audio_buffer : List Int
  recording_status : RecordingStatus
  respeaker_commander : BoundedChannel SpeakerCommand
  wake_word_buffer : AudioBuffer
  emitted_events : List AudioDetectorData
  emitted_samples : List AudioSample
deriving DecidableEq, Repr

/-- One loop iteration's environment inputs: the two clock reads taken at the top of
the iteration, the frame read from the recorder, the atomic privacy-flag read, and
the outputs of the two external classifiers on this frame. -/
structure FrameInput where
  ts_now : UtcTime
  instant_now : MonoTime
  audio_frame : List Int
  privacy_mode : Bool
  keyword_index : Int
  voice_probability : ℚ
deriving DecidableEq, Repr

/-- `ReSpeakerCommander::off` — `try_send` with the result ignored. -/
def Listener.respeaker_off (l : Listener) : Listener :=
  { l with respeaker_commander := (l.respeaker_commander.trySend SpeakerCommand.Off).1 }

/-- `ReSpeakerCommander::listen` — `try_send` with the result ignored. -/
def Listener.respeaker_listen (l : Listener) : Listener :=
  { l with respeaker_commander := (l.respeaker_commander.trySend SpeakerCommand.Listen).1 }

/-- `Listener::detect_wake_word`: a negative classifier index is "no match"; a
non-negative index is resolved in `selected_keywords`, failing if absent. -/
def Listener.detect_wake_word (l : Listener) (keyword_index : Int) :
    Except String (Option String) :=
  if keyword_index ≥ 0 then
    match l.selected_keywords.get? keyword_index.toNat with
    | some kw => Except.ok (some kw)
    | none => Except.error "Keyword index unknown"
  else
    Except.ok none

/-- `Listener::send_event`: ghost-log the event, then `try_send` it on the event
channel; only `Closed` is an error, `Full` silently drops the event. -/
def Listener.send_event (l : Listener) (event : AudioDetectorData) : Except String Listener :=
  let l := { l with emitted_events := l.emitted_events ++ [event] }
  match l.audio_detector_data.trySend event with
  | (_, some TrySendError.Closed) => Except.error "Audio detector channel closed"
  | (c, some TrySendError.Full) => Except.ok { l with audio_detector_data := c }
  | (c, none) => Except.ok { l with audio_detector_data := c }

/-- `Listener::check_privacy_mode`: when the privacy flag is set, `stop()` swaps the
recording status out (leaving `NotActive`); if it was `Active`, a
`RecordingEnd{PrivacyModeActivated}` carrying the stored wake word / timestamp is
emitted; the session audio buffer is cleared either way; returns `true` so the loop
skips the rest of the iteration. -/
def Listener.check_privacy_mode (l : Listener) (privacy_mode : Bool) :
    Except String (Listener × Bool) :=
  if privacy_mode then
    let stopped := l.recording_status
    let l := { l with recording_status := RecordingStatus.NotActive }
    let sent : Except String Listener :=
      match stopped with
      | RecordingStatus.Active recording_status =>
          l.send_event (AudioDetectorData.RecordingEnd
            ⟨recording_status.recording_triggering_wake_word,
             recording_status.recording_triggering_timestamp,
             DetectionEndReason.PrivacyModeActivated⟩)
      | RecordingStatus.NotActive => Except.ok l
    match sent with
    | Except.error e => Except.error e
    | Except.ok l => Except.ok ({ l with audio_buffer := [] }, true)
  else
    Except.ok (l, false)

/-- `Listener::check_dismiss_keyword`: when the detected word equals the configured
dismiss keyword, cancel any active session (`RecordingEnd{Dismissed}` with the
stored wake word / timestamp), clear the session audio buffer, and still report the
dismiss keyword itself as a `WakeWordDetected`; returns `true` so the loop skips
the rest of the iteration. -/
def Listener.check_dismiss_keyword (l : Listener) (detected_wake_word : String)
    (ts_now : UtcTime) : Except String (Listener × Bool) :=
  if l.dismiss_keyword = some detected_wake_word then
    let stopped := l.recording_status
    let l := { l with recording_status := RecordingStatus.NotActive }
    let sent : Except String Listener :=
      match stopped with
      | RecordingStatus.Active recording_status =>
          l.send_event (AudioDetectorData.RecordingEnd
            ⟨recording_status.recording_triggering_wake_word,
             recording_status.recording_triggering_timestamp,
             DetectionEndReason.Dismissed⟩)
      | RecordingStatus.NotActive => Except.ok l
    match sent with
    | Except.error e => Except.error e
    | Except.ok l =>
      let l := { l with audio_buffer := [] }
      match l.send_event (AudioDetectorData.WakeWordDetected ⟨detected_wake_word, ts_now⟩) with
      | Except.error e => Except.error e
      | Except.ok l => Except.ok (l, true)
  else
    Except.ok (l, false)

/-- `Listener::check_human_voice_probability`: emit the `VoiceProbability` event
(with elapsed time since last human speech and whether a session is active), then
bump `last_human_speech_detected` when the probability exceeds the threshold. -/
def Listener.check_human_voice_probability (l : Listener) (voice_probability : ℚ)
    (instant_now : MonoTime) (ts_now : UtcTime) : Except String Listener :=
  let time_since_last_human_speech_detected_ms :=
    instant_now - l.last_human_speech_detected
  match l.send_event (AudioDetectorData.VoiceProbability
      ⟨voice_probability, ts_now, time_since_last_human_speech_detected_ms,
       l.recording_status.active⟩) with
  | Except.error e => Except.error e
  | Except.ok l =>
    if voice_probability > HUMAN_SPEECH_DETECTION_PROBABILITY_THRESHOLD then
      Except.ok { l with last_human_speech_detected := instant_now }
    else
      Except.ok l

/-- `Listener::finish_recording`: `stop()` the status; if it was `Active`, hand the
accumulated audio buffer (with the stored wake word, the sample rate and the
trigger timestamp) to the sample sink via `try_send` (ghost-logged; `Closed` is an
error, `Full` drops the sample), clear the buffer, and emit
`RecordingEnd{Finished}`. -/
def Listener.finish_recording (l : Listener) : Except String Listener :=
  let stopped := l.recording_status
  let l := { l with recording_status := RecordingStatus.NotActive }
  match stopped with
  | RecordingStatus.Active recording_status =>
    let audio_sample : AudioSample :=
      ⟨l.audio_buffer, recording_status.recording_triggering_wake_word,
       l.sample_rate, recording_status.recording_triggering_timestamp⟩
    let l := { l with audio_buffer := [],
                      emitted_samples := l.emitted_samples ++ [audio_sample] }
    match l.audio_sample_sender.trySend audio_sample with
    | (_, some TrySendError.Closed) => Except.error "Audio sample channel closed"
    | (c, _) =>
      let l := { l with audio_sample_sender := c }
      l.send_event (AudioDetectorData.RecordingEnd
        ⟨recording_status.recording_triggering_wake_word,
         recording_status.recording_triggering_timestamp,
         DetectionEndReason.Finished⟩)
  | RecordingStatus.NotActive => Except.ok l

/-- The tail of one `listener_loop` iteration (from the
`check_human_voice_probability` call to the end of the loop body): run the VAD
check, append the frame to the session buffer when a session is active, compute
`should_be_recording` from the silence timeout, apply the initial-grace-period
override, and finish the recording when an active session should no longer
record. -/
def Listener.listener_step_tail (l : Listener) (inp : FrameInput) : Except String Listener :=
  match l.check_human_voice_probability inp.voice_probability inp.instant_now inp.ts_now with
  | Except.error e => Except.error e
  | Except.ok l =>
    let l :=
      if l.recording_status.active then
        { l with audio_buffer := l.audio_buffer ++ inp.audio_frame }
      else l
    let should_be_recording : Bool :=
      decide (inp.instant_now - l.last_human_speech_detected < HUMAN_SPEECH_DETECTION_TIMEOUT)
    let should_be_recording : Bool :=
      match l.recording_status.is_in_recording_initial_timeout inp.ts_now with
      | some recording_initial_status =>
          if recording_initial_status then true else should_be_recording
      | none => should_be_recording
    if l.recording_status.active && !should_be_recording then
      match l.finish_recording with
      | Except.error e => Except.error e
      | Except.ok l => Except.ok l.respeaker_off
    else
      Except.ok l

/-- One iteration of `Listener::listener_loop`: insert the frame into the retention
buffer, run the privacy check (skipping the rest of the iteration when set), run
wake-word detection, handle the dismiss keyword (skipping the rest when it fires),
open a session on a match while inactive (emitting `RecordingStarted`), bump
`last_human_speech_detected` and emit `WakeWordDetected` on any match, then run the
iteration tail. -/
def Listener.listener_step (l : Listener) (inp : FrameInput) : Except String Listener :=
  let l := { l with
    wake_word_buffer := l.wake_word_buffer.insert inp.instant_now inp.audio_frame }
  match l.check_privacy_mode inp.privacy_mode with
  | Except.error e => Except.error e
  | Except.ok (l, true) => Except.ok l.respeaker_off
  | Except.ok (l, false) =>
    match l.detect_wake_word inp.keyword_index with
    | Except.error e => Except.error e
    | Except.ok none => l.listener_step_tail inp
    | Except.ok (some detected_wake_word) =>
      match l.check_dismiss_keyword detected_wake_word inp.ts_now with
      | Except.error e => Except.error e
      | Except.ok (l, true) => Except.ok l.respeaker_off
      | Except.ok (l, false) =>
        let opened : Except String Listener :=
          if !l.recording_status.active then
            let l := l.respeaker_listen
            let l := { l with recording_status :=
              RecordingStatus.Active ⟨inp.ts_now, detected_wake_word⟩ }
            l.send_event (AudioDetectorData.RecordingStarted ⟨detected_wake_word, inp.ts_now⟩)
          else Except.ok l
        match opened with
        | Except.error e => Except.error e
        | Except.ok l =>
          let l := { l with last_human_speech_detected := inp.instant_now }
          match l.send_event (AudioDetectorData.WakeWordDetected
              ⟨detected_wake_word, inp.ts_now⟩) with
          | Except.error e => Except.error e
          | Except.ok l => l.listener_step_tail inp

/-- `Listener::listener_loop` over a finite prefix of frame inputs: iterate
`listener_step`; the first error terminates the loop. -/
def Listener.run (l : Listener) : List FrameInput → Except String Listener
  | [] => Except.ok l
  | inp :: rest =>
    match l.listener_step inp with
    | Except.error e => Except.error e
    | Except.ok l => l.run rest

/-- The lifecycle events a step (or run) from `l` to `l'` handed to the event sink
(read off the ghost log). -/
def newEvents (l l' : Listener) : List AudioDetectorData :=
  l'.emitted_events.drop l.emitted_events.length

/-- The Completed Audio Samples a step (or run) from `l` to `l'` handed to the
sample sink (read off the ghost log). -/
def newSamples (l l' : Listener) : List AudioSample :=
  l'.emitted_samples.drop l.emitted_samples.length

/-- Specification predicate: retained entries are in non-decreasing capture-instant
order (oldest first). -/
def AudioBuffer.timesSorted (b : AudioBuffer) : Prop :=
  b.samples.Pairwise fun s t => s.time ≤ t.time

/-- Specification predicate: every retained capture instant is at most `n`. -/
def AudioBuffer.boundedBy (b : AudioBuffer) (n : MonoTime) : Prop :=
  ∀ e ∈ b.samples, e.time ≤ n

/-- Specification predicate: every retained entry is within the retention window
of `now`. -/
def AudioBuffer.withinWindow (b : AudioBuffer) (now : MonoTime) : Prop :=
  ∀ e ∈ b.samples, now - e.time ≤ AUDIO_SAMPLE_RETENTION_PERIOD

lemma dropWhile_head_eq_false {α : Type} (p : α → Bool) (l : List α) (a : α) (t : List α)
    (h : l.dropWhile p = a :: t) : p a = false := by
  induction l with
  | nil => simp [List.dropWhile] at h
  | cons x xs ih =>
    cases hx : p x with
    | true =>
      simp only [List.dropWhile, hx] at h
      exact ih h
    | false =>
      simp only [List.dropWhile, hx, List.cons.injEq] at h
      obtain ⟨rfl, -⟩ := h
      exact hx

lemma AudioBuffer.insert_timesSorted (b : AudioBuffer) (now : MonoTime) (f : List Int)
    (hs : b.timesSorted) (hb : b.boundedBy now) : (b.insert now f).timesSorted := by
  unfold AudioBuffer.insert
  unfold AudioBuffer.timesSorted at hs ⊢
  apply List.pairwise_append.2
  refine ⟨hs.sublist ((List.dropWhile_suffix _).sublist), List.pairwise_singleton _ _, ?_⟩
  intro x hx y hy
  rcases List.mem_singleton.1 hy with rfl
  exact hb x ((List.dropWhile_suffix _).subset hx)

lemma AudioBuffer.insert_boundedBy (b : AudioBuffer) (now : MonoTime) (f : List Int)
    (hb : b.boundedBy now) : (b.insert now f).boundedBy now := by
  intro e he
  unfold AudioBuffer.insert at he
  rcases List.mem_append.1 he with he | he
  · exact hb e ((List.dropWhile_suffix _).subset he)
  · rcases List.mem_singleton.1 he with rfl
    exact le_rfl

lemma AudioBuffer.insert_withinWindow (b : AudioBuffer) (now : MonoTime) (f : List Int)
    (hs : b.timesSorted) : (b.insert now f).withinWindow now := by
  intro e he
  unfold AudioBuffer.insert at he
  rcases List.mem_append.1 he with he | he
  · rcases hdrop : b.samples.dropWhile
        (fun s => now - s.time > AUDIO_SAMPLE_RETENTION_PERIOD) with _ | ⟨a, t⟩
    · rw [hdrop] at he; simp at he
    · rw [hdrop] at he
      have hpa := dropWhile_head_eq_false _ _ _ _ hdrop
      have ha : now - a.time ≤ AUDIO_SAMPLE_RETENTION_PERIOD := by
        have := of_decide_eq_false hpa
        exact Nat.le_of_not_lt this
      rcases List.mem_cons.1 he with rfl | he'
      · exact ha
      · have hp : (a :: t).Pairwise (fun s t => s.time ≤ t.time) := by
          rw [← hdrop]
          exact hs.sublist ((List.dropWhile_suffix _).sublist)
        have hae : a.time ≤ e.time := (List.pairwise_cons.1 hp).1 e he'
        exact le_trans (Nat.sub_le_sub_left hae now) ha
  · rcases List.mem_singleton.1 he with rfl
    simp [AUDIO_SAMPLE_RETENTION_PERIOD]

lemma AudioBuffer.insertAll_cons (b : AudioBuffer) (op : MonoTime × List Int)
    (rest : List (MonoTime × List Int)) :
    b.insertAll (op :: rest) = (b.insert op.1 op.2).insertAll rest := rfl

lemma AudioBuffer.insertAll_inv (ops : List (MonoTime × List Int)) :
    ∀ (b : AudioBuffer) (n : MonoTime), b.timesSorted → b.boundedBy n →
      List.Chain (· ≤ ·) n (ops.map Prod.fst) →
      (b.insertAll ops).timesSorted ∧
        (b.insertAll ops).boundedBy ((ops.map Prod.fst).getLastD n) := by
  induction ops with
  | nil => intro b n hs hb _; exact ⟨hs, hb⟩
  | cons op rest ih =>
    intro b n hs hb hc
    rw [List.map_cons, List.chain_cons] at hc
    obtain ⟨hn, hc⟩ := hc
    have hb' : b.boundedBy op.1 := fun e he => le_trans (hb e he) hn
    have hs1 := AudioBuffer.insert_timesSorted b op.1 op.2 hs hb'
    have hb1 := AudioBuffer.insert_boundedBy b op.1 op.2 hb'
    have := ih (b.insert op.1 op.2) op.1 hs1 hb1 hc
    rw [AudioBuffer.insertAll_cons, List.map_cons, List.getLastD_cons]
    exact this

lemma chain_zero_of_chain' (l : List Nat) (h : List.Chain' (· ≤ ·) l) :
    List.Chain (· ≤ ·) 0 l := by
  cases l with
  | nil => exact List.Chain.nil
  | cons a t => exact List.chain_cons.2 ⟨Nat.zero_le a, h⟩

lemma AudioBuffer.empty_timesSorted : AudioBuffer.empty.timesSorted :=
  List.Pairwise.nil

lemma AudioBuffer.empty_boundedBy (n : MonoTime) : AudioBuffer.empty.boundedBy n := by
  intro e he
  exact absurd he (List.not_mem_nil e)

/-- C5: for every sequence of `insert` operations on the retention buffer whose
capture instants are non-decreasing (the instants come from the monotonic clock),
after each `insert(now, frame)` every retained entry `e` satisfies
`now - e.capture_instant ≤ retention_window` (5 seconds).  The statement covers
"after each insert" because every prefix of such a sequence is itself such a
sequence. -/
theorem c5_retention_window_invariant (ops : List (MonoTime × List Int))
    (now : MonoTime) (f : List Int)
    (hmono : List.Chain' (· ≤ ·) ((ops ++ [(now, f)]).map Prod.fst)) :
    (AudioBuffer.empty.insertAll (ops ++ [(now, f)])).withinWindow now := by
  rw [List.map_append] at hmono
  obtain ⟨h1, -, -⟩ := List.chain'_append.1 hmono
  have hsorted : (AudioBuffer.empty.insertAll ops).timesSorted :=
    (AudioBuffer.insertAll_inv ops AudioBuffer.empty 0 AudioBuffer.empty_timesSorted
      (AudioBuffer.empty_boundedBy 0) (chain_zero_of_chain' _ h1)).1
  have hsplit : AudioBuffer.empty.insertAll (ops ++ [(now, f)])
      = (AudioBuffer.empty.insertAll ops).insert now f := by
    unfold AudioBuffer.insertAll
    rw [List.foldl_append, List.foldl_cons, List.foldl_nil]
  rw [hsplit]
  exact AudioBuffer.insert_withinWindow _ _ _ hsorted

/-- Witness for C5 at a concrete insert sequence. -/
theorem c5_retention_window_invariant_witness :
    List.Chain' (· ≤ ·)
      (([((0 : MonoTime), [(1 : Int)]), (4000, [2])]
        ++ [((6000 : MonoTime), [(3 : Int)])]).map Prod.fst) ∧
    (AudioBuffer.empty.insertAll
      ([((0 : MonoTime), [(1 : Int)]), (4000, [2])]
        ++ [((6000 : MonoTime), [(3 : Int)])])).withinWindow 6000 :=
  ⟨by norm_num [List.chain'_cons],
   c5_retention_window_invariant [((0 : MonoTime), [(1 : Int)]), (4000, [2])]
     6000 [3] (by norm_num [List.chain'_cons])⟩

/-- C6: for every sequence of `insert` operations with non-decreasing capture
instants (the instants come from the monotonic clock), the retained entries are
always in non-decreasing capture-instant order (oldest first). -/
theorem c6_retention_ordering (ops : List (MonoTime × List Int))
    (hmono : List.Chain' (· ≤ ·) (ops.map Prod.fst)) :
    (AudioBuffer.empty.insertAll ops).timesSorted :=
  (AudioBuffer.insertAll_inv ops AudioBuffer.empty 0 AudioBuffer.empty_timesSorted
    (AudioBuffer.empty_boundedBy 0) (chain_zero_of_chain' _ hmono)).1

/-- Witness for C6 at a concrete insert sequence. -/
theorem c6_retention_ordering_witness :
    List.Chain' (· ≤ ·)
      (([((0 : MonoTime), [(1 : Int)]), (4000, [2]), (9500, [3])]).map Prod.fst) ∧
    (AudioBuffer.empty.insertAll
      [((0 : MonoTime), [(1 : Int)]), (4000, [2]), (9500, [3])]).timesSorted :=
  ⟨by norm_num [List.chain'_cons],
   c6_retention_ordering [((0 : MonoTime), [(1 : Int)]), (4000, [2]), (9500, [3])]
     (by norm_num [List.chain'_cons])⟩

/-- A concrete listener used by the witnesses: two keywords, "jarvis" configured as
the dismiss keyword, all channels open with room. -/
def testListener : Listener :=
  { selected_keywords := ["computer", "jarvis"]
    dismiss_keyword := some "jarvis"
    sample_rate := 16000
    audio_sample_sender := ⟨false, 100, []⟩
    audio_detector_data := ⟨false, 100, []⟩
    last_human_speech_detected := 0
    audio_buffer := []
    recording_status := RecordingStatus.NotActive
    respeaker_commander := ⟨false, 10, []⟩
    wake_word_buffer := AudioBuffer.empty
    emitted_events := []
    emitted_samples := [] }

lemma detect_wake_word_set_buffer (l : Listener) (b : AudioBuffer) (k : Int) :
    Listener.detect_wake_word { l with wake_word_buffer := b } k
      = l.detect_wake_word k := rfl

/-- C10: a negative classifier index yields no detection; a non-negative index with
no entry in the keyword table yields the error "Keyword index unknown" (no panic,
no fabricated name), and that error propagates out of the loop iteration; a
non-negative index with an entry yields that keyword's name. -/
theorem c10_detect_wake_word_resolution (l : Listener) (k : Int) :
    (k < 0 → l.detect_wake_word k = Except.ok none) ∧
    (0 ≤ k → l.selected_keywords.get? k.toNat = none →
      l.detect_wake_word k = Except.error "Keyword index unknown") ∧
    (∀ kw, 0 ≤ k → l.selected_keywords.get? k.toNat = some kw →
      l.detect_wake_word k = Except.ok (some kw)) ∧
    (∀ inp : FrameInput, inp.privacy_mode = false →
      l.detect_wake_word inp.keyword_index = Except.error "Keyword index unknown" →
      l.listener_step inp = Except.error "Keyword index unknown") := by
  refine ⟨?_, ?_, ?_, ?_⟩
  · intro hk
    unfold Listener.detect_wake_word
    rw [if_neg (not_le.2 hk)]
  · intro hk hnone
    unfold Listener.detect_wake_word
    rw [if_pos hk, hnone]
  · intro kw hk hsome
    unfold Listener.detect_wake_word
    rw [if_pos hk, hsome]
  · intro inp hpriv hdet
    unfold Listener.listener_step
    simp only [Listener.check_privacy_mode, hpriv, Bool.false_eq_true, if_false]
    rw [detect_wake_word_set_buffer, hdet]

/-- Witness for C10 at concrete indices. -/
theorem c10_detect_wake_word_resolution_witness :
    ((-1 : Int) < 0 ∧ testListener.detect_wake_word (-1) = Except.ok none) ∧
    ((0 : Int) ≤ 5 ∧ testListener.selected_keywords.get? (5 : Int).toNat = none ∧
      testListener.detect_wake_word 5 = Except.error "Keyword index unknown") ∧
    ((0 : Int) ≤ 0 ∧ testListener.selected_keywords.get? (0 : Int).toNat = some "computer" ∧
      testListener.detect_wake_word 0 = Except.ok (some "computer")) ∧
    testListener.listener_step ⟨0, 0, [7], false, 5, 0⟩
      = Except.error "Keyword index unknown" := by
  refine ⟨⟨by decide, ?_⟩, ⟨by decide, rfl, ?_⟩, ⟨by decide, rfl, ?_⟩, ?_⟩
  · exact (c10_detect_wake_word_resolution testListener (-1)).1 (by decide)
  · exact (c10_detect_wake_word_resolution testListener 5).2.1 (by decide) rfl
  · exact (c10_detect_wake_word_resolution testListener 0).2.2.1 "computer" (by decide) rfl
  · exact (c10_detect_wake_word_resolution testListener 5).2.2.2
      ⟨0, 0, [7], false, 5, 0⟩ rfl
      ((c10_detect_wake_word_resolution testListener 5).2.1 (by decide) rfl)

/-- C7: each hand-off of a lifecycle event or of a Completed Audio Sample is a
non-blocking bounded `try_send`: a full sink silently drops the value and the
call succeeds; a closed sink is a fatal error; and a step error terminates the
loop. -/
theorem c7_nonblocking_bounded_handoff :
    (∀ (l : Listener) (e : AudioDetectorData),
      l.audio_detector_data.closed = false →
      l.audio_detector_data.capacity ≤ l.audio_detector_data.queue.length →
      l.send_event e =
        Except.ok { l with emitted_events := l.emitted_events ++ [e] }) ∧
    (∀ (l : Listener) (e : AudioDetectorData),
      l.audio_detector_data.closed = true →
      l.send_event e = Except.error "Audio detector channel closed") ∧
    (∀ (l : Listener) (ar : ActiveRecording),
      l.recording_status = RecordingStatus.Active ar →
      l.audio_sample_sender.closed = true →
      l.finish_recording = Except.error "Audio sample channel closed") ∧
    (∀ (l : Listener) (ar : ActiveRecording),
      l.recording_status = RecordingStatus.Active ar →
      l.audio_sample_sender.closed = false →
      l.audio_sample_sender.capacity ≤ l.audio_sample_sender.queue.length →
      l.audio_detector_data.closed = false →
      ∃ l', l.finish_recording = Except.ok l' ∧
        l'.audio_sample_sender.queue = l.audio_sample_sender.queue) ∧
    (∀ (l : Listener) (inp : FrameInput) (rest : List FrameInput) (s : String),
      l.listener_step inp = Except.error s →
      l.run (inp :: rest) = Except.error s) := by
  refine ⟨?_, ?_, ?_, ?_, ?_⟩
  · intro l e hopen hfull
    unfold Listener.send_event BoundedChannel.trySend
    simp [hopen, hfull]
  · intro l e hclosed
    unfold Listener.send_event BoundedChannel.trySend
    simp [hclosed]
  · intro l ar har hclosed
    unfold Listener.finish_recording BoundedChannel.trySend
    rw [har]
    simp [hclosed]
  · intro l ar har hopen hfull hevopen
    unfold Listener.finish_recording BoundedChannel.trySend
    rw [har]
    simp only [hopen, hfull, Bool.false_eq_true, if_false, if_true, if_pos hfull]
    unfold Listener.send_event BoundedChannel.trySend
    simp only [hevopen, Bool.false_eq_true, if_false]
    by_cases hev : l.audio_detector_data.capacity ≤ l.audio_detector_data.queue.length
    · rw [if_pos hev]
      exact ⟨_, rfl, rfl⟩
    · rw [if_neg hev]
      exact ⟨_, rfl, rfl⟩
  · intro l inp rest s hstep
    unfold Listener.run
    rw [hstep]

/-- Witness listener whose event sink is full. -/
def fullEventListener : Listener :=
  { testListener with audio_detector_data := ⟨false, 0, []⟩ }

/-- Witness listener whose event sink is closed. -/
def closedEventListener : Listener :=
  { testListener with audio_detector_data := ⟨true, 100, []⟩ }

/-- Witness listener with an active session. -/
def activeTestListener : Listener :=
  { testListener with recording_status := RecordingStatus.Active ⟨0, "computer"⟩,
                      audio_buffer := [1, 2] }

/-- Witness listener with an active session and a closed sample sink. -/
def closedSampleActiveListener : Listener :=
  { activeTestListener with audio_sample_sender := ⟨true, 100, []⟩ }

/-- Witness listener with an active session and a full sample sink. -/
def fullSampleActiveListener : Listener :=
  { activeTestListener with audio_sample_sender := ⟨false, 0, []⟩ }

/-- Witness for C7 exercising all five conjuncts at concrete listeners. -/
theorem c7_nonblocking_bounded_handoff_witness :
    (fullEventListener.audio_detector_data.closed = false ∧
      fullEventListener.audio_detector_data.capacity
        ≤ fullEventListener.audio_detector_data.queue.length ∧
      fullEventListener.send_event (AudioDetectorData.RecordingStarted ⟨"computer", 0⟩)
        = Except.ok { fullEventListener with emitted_events :=
            fullEventListener.emitted_events
              ++ [AudioDetectorData.RecordingStarted ⟨"computer", 0⟩] }) ∧
    (closedEventListener.send_event (AudioDetectorData.RecordingStarted ⟨"computer", 0⟩)
      = Except.error "Audio detector channel closed") ∧
    (closedSampleActiveListener.finish_recording
      = Except.error "Audio sample channel closed") ∧
    (∃ l', fullSampleActiveListener.finish_recording = Except.ok l' ∧
      l'.audio_sample_sender.queue = fullSampleActiveListener.audio_sample_sender.queue) ∧
    (testListener.run [⟨0, 0, [7], false, 5, 0⟩]
      = Except.error "Keyword index unknown") := by
  refine ⟨⟨rfl, by decide, ?_⟩, ?_, ?_, ?_, ?_⟩
  · exact c7_nonblocking_bounded_handoff.1 fullEventListener _ rfl (by decide)
  · exact c7_nonblocking_bounded_handoff.2.1 closedEventListener _ rfl
  · exact c7_nonblocking_bounded_handoff.2.2.1 closedSampleActiveListener
      ⟨0, "computer"⟩ rfl rfl
  · exact c7_nonblocking_bounded_handoff.2.2.2.1 fullSampleActiveListener
      ⟨0, "computer"⟩ rfl rfl (by decide) rfl
  · exact c7_nonblocking_bounded_handoff.2.2.2.2 testListener ⟨0, 0, [7], false, 5, 0⟩ []
      "Keyword index unknown" rfl

lemma trySend_fst_closed {α : Type} (c : BoundedChannel α) (a : α) :
    ((c.trySend a).1).closed = c.closed := by
  unfold BoundedChannel.trySend
  split_ifs <;> rfl

lemma send_event_open (l : Listener) (e : AudioDetectorData)
    (hopen : l.audio_detector_data.closed = false) :
    l.send_event e = Except.ok
      { l with emitted_events := l.emitted_events ++ [e],
               audio_detector_data := (l.audio_detector_data.trySend e).1 } := by
  unfold Listener.send_event BoundedChannel.trySend
  by_cases hfull : l.audio_detector_data.capacity ≤ l.audio_detector_data.queue.length <;>
    simp [hopen, hfull]

lemma send_event_closed (l : Listener) (e : AudioDetectorData)
    (hclosed : l.audio_detector_data.closed = true) :
    l.send_event e = Except.error "Audio detector channel closed" := by
  unfold Listener.send_event BoundedChannel.trySend
  simp [hclosed]

lemma tail_closed_error (l : Listener) (inp : FrameInput)
    (hclosed : l.audio_detector_data.closed = true) :
    l.listener_step_tail inp = Except.error "Audio detector channel closed" := by
  simp only [Listener.listener_step_tail, Listener.check_human_voice_probability,
    send_event_closed _ _ hclosed]

lemma tail_inactive_open (l : Listener) (inp : FrameInput)
    (hna : l.recording_status = RecordingStatus.NotActive)
    (hopen : l.audio_detector_data.closed = false) :
    l.listener_step_tail inp = Except.ok
      { l with
        emitted_events := l.emitted_events ++
          [AudioDetectorData.VoiceProbability
            ⟨inp.voice_probability, inp.ts_now,
             inp.instant_now - l.last_human_speech_detected, false⟩],
        audio_detector_data := (l.audio_detector_data.trySend
          (AudioDetectorData.VoiceProbability
            ⟨inp.voice_probability, inp.ts_now,
             inp.instant_now - l.last_human_speech_detected, false⟩)).1,
        last_human_speech_detected :=
          if inp.voice_probability > HUMAN_SPEECH_DETECTION_PROBABILITY_THRESHOLD
          then inp.instant_now else l.last_human_speech_detected } := by
  simp only [Listener.listener_step_tail, Listener.check_human_voice_probability,
    send_event_open _ _ hopen, hna, RecordingStatus.active]
  by_cases hprob : inp.voice_probability > HUMAN_SPEECH_DETECTION_PROBABILITY_THRESHOLD <;>
    simp [hprob, RecordingStatus.active]

lemma finish_recording_active_open (l : Listener) (ar : ActiveRecording)
    (hact : l.recording_status = RecordingStatus.Active ar)
    (hsopen : l.audio_sample_sender.closed = false)
    (hevopen : l.audio_detector_data.closed = false) :
    l.finish_recording = Except.ok
      { l with
        recording_status := RecordingStatus.NotActive,
        audio_buffer := [],
        emitted_samples := l.emitted_samples ++
          [⟨l.audio_buffer, ar.recording_triggering_wake_word, l.sample_rate,
            ar.recording_triggering_timestamp⟩],
        audio_sample_sender := (l.audio_sample_sender.trySend
          ⟨l.audio_buffer, ar.recording_triggering_wake_word, l.sample_rate,
            ar.recording_triggering_timestamp⟩).1,
        emitted_events := l.emitted_events ++
          [AudioDetectorData.RecordingEnd
            ⟨ar.recording_triggering_wake_word, ar.recording_triggering_timestamp,
             DetectionEndReason.Finished⟩],
        audio_detector_data := (l.audio_detector_data.trySend
          (AudioDetectorData.RecordingEnd
            ⟨ar.recording_triggering_wake_word, ar.recording_triggering_timestamp,
             DetectionEndReason.Finished⟩)).1 } := by
  unfold Listener.finish_recording
  rw [hact]
  by_cases hfull : l.audio_sample_sender.capacity ≤ l.audio_sample_sender.queue.length
  · simp only [BoundedChannel.trySend, hsopen, Bool.false_eq_true, if_false, if_pos hfull]
    simp [send_event_open, hevopen, BoundedChannel.trySend]
  · simp only [BoundedChannel.trySend, hsopen, Bool.false_eq_true, if_false, if_neg hfull]
    simp [send_event_open, hevopen, BoundedChannel.trySend]

lemma finish_recording_active_sample_closed (l : Listener) (ar : ActiveRecording)
    (hact : l.recording_status = RecordingStatus.Active ar)
    (hsclosed : l.audio_sample_sender.closed = true) :
    l.finish_recording = Except.error "Audio sample channel closed" := by
  unfold Listener.finish_recording
  rw [hact]
  simp [BoundedChannel.trySend, hsclosed]

lemma tail_active_continue_open (l : Listener) (inp : FrameInput) (ar : ActiveRecording)
    (hact : l.recording_status = RecordingStatus.Active ar)
    (hopen : l.audio_detector_data.closed = false)
    (H : ar.recording_triggering_timestamp - inp.ts_now > RECORDING_INITIAL_TIMEOUT ∨
      inp.instant_now -
        (if inp.voice_probability > HUMAN_SPEECH_DETECTION_PROBABILITY_THRESHOLD
         then inp.instant_now else l.last_human_speech_detected)
          < HUMAN_SPEECH_DETECTION_TIMEOUT) :
    l.listener_step_tail inp = Except.ok
      { l with
        emitted_events := l.emitted_events ++
          [AudioDetectorData.VoiceProbability
            ⟨inp.voice_probability, inp.ts_now,
             inp.instant_now - l.last_human_speech_detected, true⟩],
        audio_detector_data := (l.audio_detector_data.trySend
          (AudioDetectorData.VoiceProbability
            ⟨inp.voice_probability, inp.ts_now,
             inp.instant_now - l.last_human_speech_detected, true⟩)).1,
        last_human_speech_detected :=
          if inp.voice_probability > HUMAN_SPEECH_DETECTION_PROBABILITY_THRESHOLD
          then inp.instant_now else l.last_human_speech_detected,
        audio_buffer := l.audio_buffer ++ inp.audio_frame } := by
  simp only [Listener.listener_step_tail, Listener.check_human_voice_probability,
    send_event_open _ _ hopen, hact, RecordingStatus.active,
    RecordingStatus.is_in_recording_initial_timeout]
  by_cases hprob : inp.voice_probability > HUMAN_SPEECH_DETECTION_PROBABILITY_THRESHOLD
  · by_cases hinit : ar.recording_triggering_timestamp - inp.ts_now > RECORDING_INITIAL_TIMEOUT
    · simp [hprob, hinit, RecordingStatus.active]
    · simp [hprob, hinit, RecordingStatus.active, HUMAN_SPEECH_DETECTION_TIMEOUT]
  · rw [if_neg hprob] at H
    by_cases hinit : ar.recording_triggering_timestamp - inp.ts_now > RECORDING_INITIAL_TIMEOUT
    · simp [hprob, hinit, RecordingStatus.active]
    · rcases H with H | H
      · exact absurd H hinit
      · simp [hprob, hinit, H, RecordingStatus.active]

lemma tail_active_finish_open (l : Listener) (inp : FrameInput) (ar : ActiveRecording)
    (hact : l.recording_status = RecordingStatus.Active ar)
    (hopen : l.audio_detector_data.closed = false)
    (hsopen : l.audio_sample_sender.closed = false)
    (hprob : ¬ inp.voice_probability > HUMAN_SPEECH_DETECTION_PROBABILITY_THRESHOLD)
    (hinit : ¬ ar.recording_triggering_timestamp - inp.ts_now > RECORDING_INITIAL_TIMEOUT)
    (hto : ¬ inp.instant_now - l.last_human_speech_detected
      < HUMAN_SPEECH_DETECTION_TIMEOUT) :
    l.listener_step_tail inp = Except.ok
      { l with
        emitted_events := (l.emitted_events ++
          [AudioDetectorData.VoiceProbability
            ⟨inp.voice_probability, inp.ts_now,
             inp.instant_now - l.last_human_speech_detected, true⟩]) ++
          [AudioDetectorData.RecordingEnd
            ⟨ar.recording_triggering_wake_word, ar.recording_triggering_timestamp,
             DetectionEndReason.Finished⟩],
        audio_detector_data := ((l.audio_detector_data.trySend
          (AudioDetectorData.VoiceProbability
            ⟨inp.voice_probability, inp.ts_now,
             inp.instant_now - l.last_human_speech_detected, true⟩)).1.trySend
          (AudioDetectorData.RecordingEnd
            ⟨ar.recording_triggering_wake_word, ar.recording_triggering_timestamp,
             DetectionEndReason.Finished⟩)).1,
        audio_buffer := [],
        recording_status := RecordingStatus.NotActive,
        emitted_samples := l.emitted_samples ++
          [⟨l.audio_buffer ++ inp.audio_frame, ar.recording_triggering_wake_word,
            l.sample_rate, ar.recording_triggering_timestamp⟩],
        audio_sample_sender := (l.audio_sample_sender.trySend
          ⟨l.audio_buffer ++ inp.audio_frame, ar.recording_triggering_wake_word,
            l.sample_rate, ar.recording_triggering_timestamp⟩).1,
        respeaker_commander := (l.respeaker_commander.trySend SpeakerCommand.Off).1 } := by
  simp only [Listener.listener_step_tail, Listener.check_human_voice_probability,
    send_event_open _ _ hopen, hact, RecordingStatus.active,
    RecordingStatus.is_in_recording_initial_timeout]
  simp only [hprob, if_false, hinit, hto, decide_eq_true_eq, ite_false, decide_False]
  simp [RecordingStatus.active, finish_recording_active_open, trySend_fst_closed,
    hopen, hsopen, Listener.respeaker_off, hinit, hto]

lemma tail_active_finish_sample_closed (l : Listener) (inp : FrameInput) (ar : ActiveRecording)
    (hact : l.recording_status = RecordingStatus.Active ar)
    (hopen : l.audio_detector_data.closed = false)
    (hsclosed : l.audio_sample_sender.closed = true)
    (hprob : ¬ inp.voice_probability > HUMAN_SPEECH_DETECTION_PROBABILITY_THRESHOLD)
    (hinit : ¬ ar.recording_triggering_timestamp - inp.ts_now > RECORDING_INITIAL_TIMEOUT)
    (hto : ¬ inp.instant_now - l.last_human_speech_detected
      < HUMAN_SPEECH_DETECTION_TIMEOUT) :
    l.listener_step_tail inp = Except.error "Audio sample channel closed" := by
  simp only [Listener.listener_step_tail, Listener.check_human_voice_probability,
    send_event_open _ _ hopen, hact, RecordingStatus.active,
    RecordingStatus.is_in_recording_initial_timeout]
  simp only [hprob, if_false, hinit, hto, decide_eq_true_eq, ite_false, decide_False]
  simp [RecordingStatus.active, finish_recording_active_sample_closed, hsclosed, hinit, hto]

lemma step_privacy_inactive (l : Listener) (inp : FrameInput)
    (hpriv : inp.privacy_mode = true)
    (hna : l.recording_status = RecordingStatus.NotActive) :
    l.listener_step inp = Except.ok
      { l with
        wake_word_buffer := l.wake_word_buffer.insert inp.instant_now inp.audio_frame,
        recording_status := RecordingStatus.NotActive,
        audio_buffer := [],
        respeaker_commander := (l.respeaker_commander.trySend SpeakerCommand.Off).1 } := by
  simp only [Listener.listener_step, Listener.check_privacy_mode, hpriv, if_true, hna,
    Listener.respeaker_off]

lemma step_privacy_active_open (l : Listener) (inp : FrameInput) (ar : ActiveRecording)
    (hpriv : inp.privacy_mode = true)
    (hact : l.recording_status = RecordingStatus.Active ar)
    (hopen : l.audio_detector_data.closed = false) :
    l.listener_step inp = Except.ok
      { l with
        wake_word_buffer := l.wake_word_buffer.insert inp.instant_now inp.audio_frame,
        recording_status := RecordingStatus.NotActive,
        audio_buffer := [],
        emitted_events := l.emitted_events ++
          [AudioDetectorData.RecordingEnd
            ⟨ar.recording_triggering_wake_word, ar.recording_triggering_timestamp,
             DetectionEndReason.PrivacyModeActivated⟩],
        audio_detector_data := (l.audio_detector_data.trySend
          (AudioDetectorData.RecordingEnd
            ⟨ar.recording_triggering_wake_word, ar.recording_triggering_timestamp,
             DetectionEndReason.PrivacyModeActivated⟩)).1,
        respeaker_commander := (l.respeaker_commander.trySend SpeakerCommand.Off).1 } := by
  simp only [Listener.listener_step, Listener.check_privacy_mode, hpriv, if_true, hact]
  simp [send_event_open, hopen, Listener.respeaker_off]

lemma step_privacy_active_closed (l : Listener) (inp : FrameInput) (ar : ActiveRecording)
    (hpriv : inp.privacy_mode = true)
    (hact : l.recording_status = RecordingStatus.Active ar)
    (hclosed : l.audio_detector_data.closed = true) :
    l.listener_step inp = Except.error "Audio detector channel closed" := by
  simp only [Listener.listener_step, Listener.check_privacy_mode, hpriv, if_true, hact]
  simp [send_event_closed, hclosed]

lemma step_quiet (l : Listener) (inp : FrameInput)
    (hpriv : inp.privacy_mode = false)
    (hdet : l.detect_wake_word inp.keyword_index = Except.ok none) :
    l.listener_step inp =
      Listener.listener_step_tail
        { l with wake_word_buffer := l.wake_word_buffer.insert inp.instant_now inp.audio_frame }
        inp := by
  simp only [Listener.listener_step, Listener.check_privacy_mode, hpriv, Bool.false_eq_true,
    if_false, detect_wake_word_set_buffer, hdet]

lemma step_dismiss_active_open (l : Listener) (inp : FrameInput) (ar : ActiveRecording)
    (w : String)
    (hpriv : inp.privacy_mode = false)
    (hdet : l.detect_wake_word inp.keyword_index = Except.ok (some w))
    (hdk : l.dismiss_keyword = some w)
    (hact : l.recording_status = RecordingStatus.Active ar)
    (hopen : l.audio_detector_data.closed = false) :
    l.listener_step inp = Except.ok
      { l with
        wake_word_buffer := l.wake_word_buffer.insert inp.instant_now inp.audio_frame,
        recording_status := RecordingStatus.NotActive,
        audio_buffer := [],
        emitted_events := (l.emitted_events ++
          [AudioDetectorData.RecordingEnd
            ⟨ar.recording_triggering_wake_word, ar.recording_triggering_timestamp,
             DetectionEndReason.Dismissed⟩]) ++
          [AudioDetectorData.WakeWordDetected ⟨w, inp.ts_now⟩],
        audio_detector_data := ((l.audio_detector_data.trySend
          (AudioDetectorData.RecordingEnd
            ⟨ar.recording_triggering_wake_word, ar.recording_triggering_timestamp,
             DetectionEndReason.Dismissed⟩)).1.trySend
          (AudioDetectorData.WakeWordDetected ⟨w, inp.ts_now⟩)).1,
        respeaker_commander := (l.respeaker_commander.trySend SpeakerCommand.Off).1 } := by
  simp only [Listener.listener_step, Listener.check_privacy_mode, hpriv, Bool.false_eq_true,
    if_false, detect_wake_word_set_buffer, hdet]
  simp only [Listener.check_dismiss_keyword, hdk, hact]
  simp [send_event_open, hopen, trySend_fst_closed, Listener.respeaker_off]

lemma step_dismiss_inactive_open (l : Listener) (inp : FrameInput) (w : String)
    (hpriv : inp.privacy_mode = false)
    (hdet : l.detect_wake_word inp.keyword_index = Except.ok (some w))
    (hdk : l.dismiss_keyword = some w)
    (hna : l.recording_status = RecordingStatus.NotActive)
    (hopen : l.audio_detector_data.closed = false) :
    l.listener_step inp = Except.ok
      { l with
        wake_word_buffer := l.wake_word_buffer.insert inp.instant_now inp.audio_frame,
        recording_status := RecordingStatus.NotActive,
        audio_buffer := [],
        emitted_events := l.emitted_events ++
          [AudioDetectorData.WakeWordDetected ⟨w, inp.ts_now⟩],
        audio_detector_data := (l.audio_detector_data.trySend
          (AudioDetectorData.WakeWordDetected ⟨w, inp.ts_now⟩)).1,
        respeaker_commander := (l.respeaker_commander.trySend SpeakerCommand.Off).1 } := by
  simp only [Listener.listener_step, Listener.check_privacy_mode, hpriv, Bool.false_eq_true,
    if_false, detect_wake_word_set_buffer, hdet]
  simp only [Listener.check_dismiss_keyword, hdk, hna]
  simp [send_event_open, hopen, Listener.respeaker_off]

lemma step_dismiss_closed (l : Listener) (inp : FrameInput) (w : String)
    (hpriv : inp.privacy_mode = false)
    (hdet : l.detect_wake_word inp.keyword_index = Except.ok (some w))
    (hdk : l.dismiss_keyword = some w)
    (hclosed : l.audio_detector_data.closed = true) :
    l.listener_step inp = Except.error "Audio detector channel closed" := by
  simp only [Listener.listener_step, Listener.check_privacy_mode, hpriv, Bool.false_eq_true,
    if_false, detect_wake_word_set_buffer, hdet]
  simp only [Listener.check_dismiss_keyword, hdk]
  rcases hst : l.recording_status with _ | ar <;>
    simp [hst, send_event_closed, hclosed, trySend_fst_closed]

lemma step_wake_existing_open (l : Listener) (inp : FrameInput) (ar : ActiveRecording)
    (w : String)
    (hpriv : inp.privacy_mode = false)
    (hdet : l.detect_wake_word inp.keyword_index = Except.ok (some w))
    (hdk : l.dismiss_keyword ≠ some w)
    (hact : l.recording_status = RecordingStatus.Active ar)
    (hopen : l.audio_detector_data.closed = false) :
    l.listener_step inp = Except.ok
      { l with
        wake_word_buffer := l.wake_word_buffer.insert inp.instant_now inp.audio_frame,
        last_human_speech_detected := inp.instant_now,
        emitted_events := (l.emitted_events ++
          [AudioDetectorData.WakeWordDetected ⟨w, inp.ts_now⟩]) ++
          [AudioDetectorData.VoiceProbability
            ⟨inp.voice_probability, inp.ts_now, 0, true⟩],
        audio_detector_data := ((l.audio_detector_data.trySend
          (AudioDetectorData.WakeWordDetected ⟨w, inp.ts_now⟩)).1.trySend
          (AudioDetectorData.VoiceProbability
            ⟨inp.voice_probability, inp.ts_now, 0, true⟩)).1,
        audio_buffer := l.audio_buffer ++ inp.audio_frame } := by
  simp only [Listener.listener_step, Listener.check_privacy_mode, hpriv, Bool.false_eq_true,
    if_false, detect_wake_word_set_buffer, hdet]
  simp only [Listener.check_dismiss_keyword, hdk, hact]
  simp [send_event_open, hopen, trySend_fst_closed, RecordingStatus.active,
    tail_active_continue_open, HUMAN_SPEECH_DETECTION_TIMEOUT]

lemma step_wake_new_open (l : Listener) (inp : FrameInput) (w : String)
    (hpriv : inp.privacy_mode = false)
    (hdet : l.detect_wake_word inp.keyword_index = Except.ok (some w))
    (hdk : l.dismiss_keyword ≠ some w)
    (hna : l.recording_status = RecordingStatus.NotActive)
    (hopen : l.audio_detector_data.closed = false) :
    l.listener_step inp = Except.ok
      { l with
        wake_word_buffer := l.wake_word_buffer.insert inp.instant_now inp.audio_frame,
        respeaker_commander := (l.respeaker_commander.trySend SpeakerCommand.Listen).1,
        recording_status := RecordingStatus.Active ⟨inp.ts_now, w⟩,
        last_human_speech_detected := inp.instant_now,
        emitted_events := ((l.emitted_events ++
          [AudioDetectorData.RecordingStarted ⟨w, inp.ts_now⟩]) ++
          [AudioDetectorData.WakeWordDetected ⟨w, inp.ts_now⟩]) ++
          [AudioDetectorData.VoiceProbability
            ⟨inp.voice_probability, inp.ts_now, 0, true⟩],
        audio_detector_data := (((l.audio_detector_data.trySend
          (AudioDetectorData.RecordingStarted ⟨w, inp.ts_now⟩)).1.trySend
          (AudioDetectorData.WakeWordDetected ⟨w, inp.ts_now⟩)).1.trySend
          (AudioDetectorData.VoiceProbability
            ⟨inp.voice_probability, inp.ts_now, 0, true⟩)).1,
        audio_buffer := l.audio_buffer ++ inp.audio_frame } := by
  simp only [Listener.listener_step, Listener.check_privacy_mode, hpriv, Bool.false_eq_true,
    if_false, detect_wake_word_set_buffer, hdet]
  simp only [Listener.check_dismiss_keyword, hdk, hna, Listener.respeaker_listen]
  simp [send_event_open, hopen, trySend_fst_closed, RecordingStatus.active,
    tail_active_continue_open, HUMAN_SPEECH_DETECTION_TIMEOUT]

lemma step_wake_closed (l : Listener) (inp : FrameInput) (w : String)
    (hpriv : inp.privacy_mode = false)
    (hdet : l.detect_wake_word inp.keyword_index = Except.ok (some w))
    (hdk : l.dismiss_keyword ≠ some w)
    (hclosed : l.audio_detector_data.closed = true) :
    l.listener_step inp = Except.error "Audio detector channel closed" := by
  simp only [Listener.listener_step, Listener.check_privacy_mode, hpriv, Bool.false_eq_true,
    if_false, detect_wake_word_set_buffer, hdet]
  simp only [Listener.check_dismiss_keyword, hdk]
  rcases hst : l.recording_status with _ | ar <;>
    simp [hst, send_event_closed, hclosed, trySend_fst_closed, RecordingStatus.active,
      Listener.respeaker_listen]

/-- Is this event a `RecordingEnd` with reason `Finished`? -/
def isFinishedEnd : AudioDetectorData → Bool
  | AudioDetectorData.RecordingEnd e =>
    match e.reason with
    | DetectionEndReason.Finished => true
    | _ => false
  | _ => false

lemma tail_active_continue_facts (l : Listener) (inp : FrameInput) (ar : ActiveRecording)
    (l' : Listener)
    (hst : l.recording_status = RecordingStatus.Active ar)
    (hcl : l.audio_detector_data.closed = false)
    (H : ar.recording_triggering_timestamp - inp.ts_now > RECORDING_INITIAL_TIMEOUT ∨
      inp.instant_now -
        (if inp.voice_probability > HUMAN_SPEECH_DETECTION_PROBABILITY_THRESHOLD
         then inp.instant_now else l.last_human_speech_detected)
          < HUMAN_SPEECH_DETECTION_TIMEOUT)
    (h : l.listener_step_tail inp = Except.ok l') :
    l'.wake_word_buffer = l.wake_word_buffer ∧
    (l'.last_human_speech_detected = l.last_human_speech_detected ∨
      l'.last_human_speech_detected = inp.instant_now) ∧
    (newSamples l l').length = ((newEvents l l').filter isFinishedEnd).length ∧
    (∀ ar1 ar', l.recording_status = RecordingStatus.Active ar1 →
      l'.recording_status = RecordingStatus.Active ar' →
      ar' = ar1 ∧ l'.audio_buffer = l.audio_buffer ++ inp.audio_frame) ∧
    (∀ ar1, l.recording_status = RecordingStatus.Active ar1 →
      (newEvents l l').any isFinishedEnd = true →
      newSamples l l' =
        [⟨l.audio_buffer ++ inp.audio_frame, ar1.recording_triggering_wake_word,
          l.sample_rate, ar1.recording_triggering_timestamp⟩] ∧
      l'.audio_buffer = []) ∧
    (∀ ar', l.recording_status = RecordingStatus.NotActive →
      l'.recording_status = RecordingStatus.Active ar' → False) := by
  rw [tail_active_continue_open l inp ar hst hcl H] at h
  cases h
  refine ⟨rfl, ?_, ?_, ?_, ?_, ?_⟩
  · by_cases hprob : inp.voice_probability > HUMAN_SPEECH_DETECTION_PROBABILITY_THRESHOLD
    · exact Or.inr (by simp [hprob])
    · exact Or.inl (by simp [hprob])
  · simp [newSamples, newEvents, isFinishedEnd, List.drop_left]
  · intro ar1 ar' har har'
    simp only [hst, RecordingStatus.Active.injEq] at har
    simp only [hst, RecordingStatus.Active.injEq] at har'
    subst har
    subst har'
    exact ⟨rfl, rfl⟩
  · intro ar1 har hany
    simp [newEvents, List.drop_left, isFinishedEnd] at hany
  · intro ar' har'
    rw [hst] at har'
    cases har'

lemma tail_ok_facts (l : Listener) (inp : FrameInput) (l' : Listener)
    (h : l.listener_step_tail inp = Except.ok l') :
    l'.wake_word_buffer = l.wake_word_buffer ∧
    (l'.last_human_speech_detected = l.last_human_speech_detected ∨
      l'.last_human_speech_detected = inp.instant_now) ∧
    (newSamples l l').length = ((newEvents l l').filter isFinishedEnd).length ∧
    (∀ ar1 ar', l.recording_status = RecordingStatus.Active ar1 →
      l'.recording_status = RecordingStatus.Active ar' →
      ar' = ar1 ∧ l'.audio_buffer = l.audio_buffer ++ inp.audio_frame) ∧
    (∀ ar1, l.recording_status = RecordingStatus.Active ar1 →
      (newEvents l l').any isFinishedEnd = true →
      newSamples l l' =
        [⟨l.audio_buffer ++ inp.audio_frame, ar1.recording_triggering_wake_word,
          l.sample_rate, ar1.recording_triggering_timestamp⟩] ∧
      l'.audio_buffer = []) ∧
    (∀ ar', l.recording_status = RecordingStatus.NotActive →
      l'.recording_status = RecordingStatus.Active ar' → False) := by
  cases hcl : l.audio_detector_data.closed
  case true =>
    rw [tail_closed_error l inp hcl] at h
    cases h
  case false =>
  rcases hst : l.recording_status with _ | ar
  · rw [tail_inactive_open l inp hst hcl] at h
    cases h
    refine ⟨rfl, ?_, ?_, ?_, ?_, ?_⟩
    · by_cases hprob : inp.voice_probability > HUMAN_SPEECH_DETECTION_PROBABILITY_THRESHOLD
      · exact Or.inr (by simp [hprob])
      · exact Or.inl (by simp [hprob])
    · simp [newSamples, newEvents, isFinishedEnd, List.drop_left]
    · intro ar1 ar' har har'
      simp [hst] at har
    · intro ar1 har hany
      simp [hst] at har
    · intro ar' _ har'
      simp [hst] at har'
  · rw [← hst]
    by_cases hprob : inp.voice_probability > HUMAN_SPEECH_DETECTION_PROBABILITY_THRESHOLD
    · exact tail_active_continue_facts l inp ar l' hst hcl
        (Or.inr (by simp [hprob, HUMAN_SPEECH_DETECTION_TIMEOUT])) h
    · by_cases hinit : ar.recording_triggering_timestamp - inp.ts_now > RECORDING_INITIAL_TIMEOUT
      · exact tail_active_continue_facts l inp ar l' hst hcl (Or.inl hinit) h
      · by_cases hto : inp.instant_now - l.last_human_speech_detected
            < HUMAN_SPEECH_DETECTION_TIMEOUT
        · exact tail_active_continue_facts l inp ar l' hst hcl
            (Or.inr (by simp [hprob, hto])) h
        · cases hscl : l.audio_sample_sender.closed
          · rw [tail_active_finish_open l inp ar hst hcl hscl hprob hinit hto] at h
            cases h
            refine ⟨rfl, Or.inl rfl, ?_, ?_, ?_, ?_⟩
            · simp [newSamples, newEvents, isFinishedEnd, List.drop_left, List.append_assoc]
            · intro ar1 ar' har har'
              simp at har'
            · intro ar1 har hany
              simp only [hst, RecordingStatus.Active.injEq] at har
              subst har
              constructor
              · simp [newSamples, List.drop_left]
              · rfl
            · intro ar' h1 h2
              rw [hst] at h1
              cases h1
          · rw [tail_active_finish_sample_closed l inp ar hst hcl hscl hprob hinit hto] at h
            cases h

lemma step_detect_error (l : Listener) (inp : FrameInput) (e : String)
    (hpriv : inp.privacy_mode = false)
    (hdet : l.detect_wake_word inp.keyword_index = Except.error e) :
    l.listener_step inp = Except.error e := by
  simp only [Listener.listener_step, Listener.check_privacy_mode, hpriv, Bool.false_eq_true,
    if_false, detect_wake_word_set_buffer, hdet]

lemma step_ok_facts (l : Listener) (inp : FrameInput) (l' : Listener)
    (h : l.listener_step inp = Except.ok l') :
    l'.wake_word_buffer = l.wake_word_buffer.insert inp.instant_now inp.audio_frame ∧
    (l'.last_human_speech_detected = l.last_human_speech_detected ∨
      l'.last_human_speech_detected = inp.instant_now) ∧
    (newSamples l l').length = ((newEvents l l').filter isFinishedEnd).length ∧
    (∀ ar1 ar', l.recording_status = RecordingStatus.Active ar1 →
      l'.recording_status = RecordingStatus.Active ar' →
      ar' = ar1 ∧ l'.audio_buffer = l.audio_buffer ++ inp.audio_frame) ∧
    (∀ ar1, l.recording_status = RecordingStatus.Active ar1 →
      (newEvents l l').any isFinishedEnd = true →
      newSamples l l' =
        [⟨l.audio_buffer ++ inp.audio_frame, ar1.recording_triggering_wake_word,
          l.sample_rate, ar1.recording_triggering_timestamp⟩] ∧
      l'.audio_buffer = []) ∧
    (∀ ar', l.recording_status = RecordingStatus.NotActive → l.audio_buffer = [] →
      l'.recording_status = RecordingStatus.Active ar' →
      l'.audio_buffer = inp.audio_frame ∧
        ar'.recording_triggering_timestamp = inp.ts_now) := by
  by_cases hpriv : inp.privacy_mode = true
  · rcases hst : l.recording_status with _ | ar
    · rw [step_privacy_inactive l inp hpriv hst] at h
      cases h
      refine ⟨rfl, Or.inl rfl, ?_, ?_, ?_, ?_⟩
      · simp [newSamples, newEvents, List.drop_length]
      · intro ar1 ar' har har'
        simp at har
      · intro ar1 har hany
        simp at har
      · intro ar' h1 hbuf h2
        simp at h2
    · rw [← hst]
      cases hcl : l.audio_detector_data.closed
      · rw [step_privacy_active_open l inp ar hpriv hst hcl] at h
        cases h
        refine ⟨rfl, Or.inl rfl, ?_, ?_, ?_, ?_⟩
        · simp [newSamples, newEvents, List.drop_length, List.drop_left, isFinishedEnd]
        · intro ar1 ar' har har'
          simp at har'
        · intro ar1 har hany
          simp [newEvents, List.drop_left, isFinishedEnd] at hany
        · intro ar' h1 hbuf h2
          rw [hst] at h1
          cases h1
      · rw [step_privacy_active_closed l inp ar hpriv hst hcl] at h
        cases h
  · have hpriv' : inp.privacy_mode = false := by simpa using hpriv
    cases hdet : l.detect_wake_word inp.keyword_index with
    | error e =>
      rw [step_detect_error l inp e hpriv' hdet] at h
      cases h
    | ok ow =>
      cases ow with
      | none =>
        rw [step_quiet l inp hpriv' hdet] at h
        obtain ⟨f1, f2, f3, f4, f5, f6⟩ := tail_ok_facts _ inp l' h
        exact ⟨f1, f2, f3, f4, f5, fun ar' h1 _ h2 => absurd (f6 ar' h1 h2) not_false⟩
      | some w =>
        by_cases hdk : l.dismiss_keyword = some w
        · rcases hst : l.recording_status with _ | ar
          · cases hcl : l.audio_detector_data.closed
            · rw [step_dismiss_inactive_open l inp w hpriv' hdet hdk hst hcl] at h
              cases h
              refine ⟨rfl, Or.inl rfl, ?_, ?_, ?_, ?_⟩
              · simp [newSamples, newEvents, List.drop_length, List.drop_left, isFinishedEnd]
              · intro ar1 ar' har har'
                simp at har
              · intro ar1 har hany
                simp at har
              · intro ar' h1 hbuf h2
                simp at h2
            · rw [step_dismiss_closed l inp w hpriv' hdet hdk hcl] at h
              cases h
          · rw [← hst]
            cases hcl : l.audio_detector_data.closed
            · rw [step_dismiss_active_open l inp ar w hpriv' hdet hdk hst hcl] at h
              cases h
              refine ⟨rfl, Or.inl rfl, ?_, ?_, ?_, ?_⟩
              · simp [newSamples, newEvents, List.drop_length, List.drop_left,
                  List.append_assoc, isFinishedEnd]
              · intro ar1 ar' har har'
                simp at har'
              · intro ar1 har hany
                simp [newEvents, List.drop_left, List.append_assoc, isFinishedEnd] at hany
              · intro ar' h1 hbuf h2
                rw [hst] at h1
                cases h1
            · rw [step_dismiss_closed l inp w hpriv' hdet hdk hcl] at h
              cases h
        · rcases hst : l.recording_status with _ | ar
          · cases hcl : l.audio_detector_data.closed
            · rw [step_wake_new_open l inp w hpriv' hdet hdk hst hcl] at h
              cases h
              refine ⟨rfl, Or.inr rfl, ?_, ?_, ?_, ?_⟩
              · simp [newSamples, newEvents, List.drop_length, List.drop_left,
                  List.append_assoc, isFinishedEnd]
              · intro ar1 ar' har har'
                simp at har
              · intro ar1 har hany
                simp at har
              · intro ar' h1 hbuf h2
                simp only [RecordingStatus.Active.injEq] at h2
                subst h2
                rw [hbuf]
                exact ⟨by simp, rfl⟩
            · rw [step_wake_closed l inp w hpriv' hdet hdk hcl] at h
              cases h
          · rw [← hst]
            cases hcl : l.audio_detector_data.closed
            · rw [step_wake_existing_open l inp ar w hpriv' hdet hdk hst hcl] at h
              cases h
              refine ⟨rfl, Or.inr rfl, ?_, ?_, ?_, ?_⟩
              · simp [newSamples, newEvents, List.drop_length, List.drop_left,
                  List.append_assoc, isFinishedEnd]
              · intro ar1 ar' har har'
                simp only [hst, RecordingStatus.Active.injEq] at har har'
                subst har
                subst har'
                exact ⟨rfl, rfl⟩
              · intro ar1 har hany
                simp [newEvents, List.drop_left, List.append_assoc, isFinishedEnd] at hany
              · intro ar' h1 hbuf h2
                rw [hst] at h1
                cases h1
            · rw [step_wake_closed l inp w hpriv' hdet hdk hcl] at h
              cases h

lemma step_last_mono (l : Listener) (inp : FrameInput) (l' : Listener)
    (hm : l.last_human_speech_detected ≤ inp.instant_now)
    (h : l.listener_step inp = Except.ok l') :
    l.last_human_speech_detected ≤ l'.last_human_speech_detected := by
  rcases (step_ok_facts l inp l' h).2.1 with he | he
  · rw [he]
  · rw [he]; exact hm

lemma step_last_le_now (l : Listener) (inp : FrameInput) (l' : Listener)
    (hm : l.last_human_speech_detected ≤ inp.instant_now)
    (h : l.listener_step inp = Except.ok l') :
    l'.last_human_speech_detected ≤ inp.instant_now := by
  rcases (step_ok_facts l inp l' h).2.1 with he | he
  · rw [he]; exact hm
  · rw [he]

lemma chain_le_head_weaken {a a' : Nat} {xs : List Nat} (hle : a' ≤ a)
    (hc : List.Chain (· ≤ ·) a xs) : List.Chain (· ≤ ·) a' xs := by
  cases hc with
  | nil => exact List.Chain.nil
  | cons hab hc => exact List.Chain.cons (le_trans hle hab) hc

lemma run_last_mono (inps : List FrameInput) :
    ∀ (l₀ l₁ : Listener),
    List.Chain (· ≤ ·) l₀.last_human_speech_detected (inps.map FrameInput.instant_now) →
    l₀.run inps = Except.ok l₁ →
    l₀.last_human_speech_detected ≤ l₁.last_human_speech_detected := by
  induction inps with
  | nil =>
    intro l₀ l₁ _ h
    unfold Listener.run at h
    cases h
    exact le_rfl
  | cons inp rest ih =>
    intro l₀ l₁ hc h
    unfold Listener.run at h
    cases hstep : l₀.listener_step inp with
    | error e => rw [hstep] at h; cases h
    | ok m =>
      rw [hstep] at h
      rw [List.map_cons, List.chain_cons] at hc
      obtain ⟨h1, h2⟩ := hc
      exact le_trans (step_last_mono l₀ inp m h1 hstep)
        (ih m l₁ (chain_le_head_weaken (step_last_le_now l₀ inp m h1 hstep) h2) h)

/-- C8: the Last-Human-Speech Timestamp is never moved backward.  Per frame: if the
iteration's monotonic-clock reading is no earlier than the stored timestamp (which
the monotonic clock guarantees), the step never decreases the timestamp — each of
its assignments writes the current instant.  Over any run whose monotonic-clock
readings form a non-decreasing chain starting no earlier than the stored
timestamp, the timestamp is non-decreasing end to end. -/
theorem c8_last_human_speech_never_backward :
    (∀ (l : Listener) (inp : FrameInput) (l' : Listener),
      l.last_human_speech_detected ≤ inp.instant_now →
      l.listener_step inp = Except.ok l' →
      l.last_human_speech_detected ≤ l'.last_human_speech_detected ∧
        (l'.last_human_speech_detected = l.last_human_speech_detected ∨
          l'.last_human_speech_detected = inp.instant_now)) ∧
    (∀ (inps : List FrameInput) (l₀ l₁ : Listener),
      List.Chain (· ≤ ·) l₀.last_human_speech_detected (inps.map FrameInput.instant_now) →
      l₀.run inps = Except.ok l₁ →
      l₀.last_human_speech_detected ≤ l₁.last_human_speech_detected) :=
  ⟨fun l inp l' hm h => ⟨step_last_mono l inp l' hm h, (step_ok_facts l inp l' h).2.1⟩,
   fun inps l₀ l₁ hc h => run_last_mono inps l₀ l₁ hc h⟩

deriving instance DecidableEq for Except

/-- The state the test listener reaches after one quiet frame at instant 700. -/
def quietStepResult : Listener :=
  { testListener with
    wake_word_buffer := testListener.wake_word_buffer.insert 700 [5],
    emitted_events := [AudioDetectorData.VoiceProbability ⟨0, 0, 700, false⟩],
    audio_detector_data := ⟨false, 100, [AudioDetectorData.VoiceProbability ⟨0, 0, 700, false⟩]⟩ }

/-- Witness for C8: a quiet frame at instant 700 on the test listener (stored
timestamp 0). -/
theorem c8_last_human_speech_never_backward_witness :
    testListener.last_human_speech_detected ≤ (700 : MonoTime) ∧
    testListener.listener_step ⟨0, 700, [5], false, -1, 0⟩ = Except.ok quietStepResult ∧
    testListener.last_human_speech_detected ≤ quietStepResult.last_human_speech_detected := by
  have hstep : testListener.listener_step ⟨0, 700, [5], false, -1, 0⟩
      = Except.ok quietStepResult := by decide
  exact ⟨by decide, hstep,
    (c8_last_human_speech_never_backward.1 testListener ⟨0, 700, [5], false, -1, 0⟩
      quietStepResult (by decide) hstep).1⟩

lemma insert_self_mem (b : AudioBuffer) (now : MonoTime) (f : List Int) :
    BufferedSample.mk f now ∈ (b.insert now f).samples := by
  unfold AudioBuffer.insert
  exact List.mem_append.2 (Or.inr (List.mem_singleton.2 rfl))

/-- C9: every frame read from the frame source is inserted into the Retention
Buffer at the top of the iteration, before the privacy check and before wake-word
detection: on every successful step — privacy mode included — the new retention
buffer is exactly the old one with this frame inserted, the frame is retained,
and (when the old buffer was in capture order) all retained entries lie within
the 5-second retention window of this frame's capture instant. -/
theorem c9_retention_buffer_always_inserted (l : Listener) (inp : FrameInput) (l' : Listener)
    (hstep : l.listener_step inp = Except.ok l') :
    l'.wake_word_buffer = l.wake_word_buffer.insert inp.instant_now inp.audio_frame ∧
    BufferedSample.mk inp.audio_frame inp.instant_now ∈ l'.wake_word_buffer.samples ∧
    (l.wake_word_buffer.timesSorted →
      l'.wake_word_buffer.withinWindow inp.instant_now) := by
  have h1 := (step_ok_facts l inp l' hstep).1
  refine ⟨h1, ?_, ?_⟩
  · rw [h1]
    exact insert_self_mem _ _ _
  · intro hs
    rw [h1]
    exact AudioBuffer.insert_withinWindow _ _ _ hs

/-- The state the test listener reaches after one frame at instant 900 with the
privacy flag set. -/
def privacyStepResult : Listener :=
  { testListener with
    wake_word_buffer := testListener.wake_word_buffer.insert 900 [9],
    respeaker_commander := ⟨false, 10, [SpeakerCommand.Off]⟩ }

/-- Witness for C9: a privacy-mode frame at instant 900 on the test listener. -/
theorem c9_retention_buffer_always_inserted_witness :
    testListener.listener_step ⟨0, 900, [9], true, -1, 0⟩ = Except.ok privacyStepResult ∧
    (privacyStepResult.wake_word_buffer
        = testListener.wake_word_buffer.insert 900 [9] ∧
      BufferedSample.mk [9] 900 ∈ privacyStepResult.wake_word_buffer.samples ∧
      (testListener.wake_word_buffer.timesSorted →
        privacyStepResult.wake_word_buffer.withinWindow 900)) := by
  have hstep : testListener.listener_step ⟨0, 900, [9], true, -1, 0⟩
      = Except.ok privacyStepResult := by decide
  exact ⟨hstep,
    c9_retention_buffer_always_inserted testListener ⟨0, 900, [9], true, -1, 0⟩
      privacyStepResult hstep⟩

/-- Is this event a `RecordingStarted`? -/
def isRecordingStarted : AudioDetectorData → Bool
  | AudioDetectorData.RecordingStarted _ => true
  | _ => false

/-- Is this event a `WakeWordDetected`? -/
def isWakeWordDetected : AudioDetectorData → Bool
  | AudioDetectorData.WakeWordDetected _ => true
  | _ => false

/-- C2: a further wake-word match (other than the dismiss keyword) while a session
is Active does not open a second session: the step succeeds, `triggering_wake_word`
and `triggered_at` are unchanged (the stored `ActiveRecording` is preserved), no
`RecordingStarted` is emitted, exactly one `WakeWordDetected` is emitted, and no
sample is produced.  At most one session is active at any time by construction:
`RecordingStatus` holds at most one `ActiveRecording`. -/
theorem c2_session_exclusivity (l : Listener) (inp : FrameInput) (ar : ActiveRecording)
    (w : String)
    (hact : l.recording_status = RecordingStatus.Active ar)
    (hpriv : inp.privacy_mode = false)
    (hdet : l.detect_wake_word inp.keyword_index = Except.ok (some w))
    (hdk : l.dismiss_keyword ≠ some w)
    (hopen : l.audio_detector_data.closed = false) :
    ∃ l', l.listener_step inp = Except.ok l' ∧
      l'.recording_status = RecordingStatus.Active ar ∧
      newEvents l l' =
        [AudioDetectorData.WakeWordDetected ⟨w, inp.ts_now⟩,
         AudioDetectorData.VoiceProbability ⟨inp.voice_probability, inp.ts_now, 0, true⟩] ∧
      (newEvents l l').filter isRecordingStarted = [] ∧
      ((newEvents l l').filter isWakeWordDetected).length = 1 ∧
      newSamples l l' = [] := by
  refine ⟨_, step_wake_existing_open l inp ar w hpriv hdet hdk hact hopen, ?_, ?_, ?_, ?_, ?_⟩
  · exact hact
  · simp [newEvents, List.append_assoc, List.drop_left]
  · simp [newEvents, List.append_assoc, List.drop_left, isRecordingStarted]
  · simp [newEvents, List.append_assoc, List.drop_left, isWakeWordDetected]
  · simp [newSamples, List.drop_length]

/-- Witness for C2: the non-dismiss keyword "computer" matched while the test
session (triggered by "computer" at time 0) is active. -/
theorem c2_session_exclusivity_witness :
    activeTestListener.recording_status = RecordingStatus.Active ⟨0, "computer"⟩ ∧
    activeTestListener.detect_wake_word 0 = Except.ok (some "computer") ∧
    activeTestListener.dismiss_keyword ≠ some "computer" ∧
    ∃ l', activeTestListener.listener_step ⟨500, 50, [4], false, 0, 0⟩ = Except.ok l' ∧
      l'.recording_status = RecordingStatus.Active ⟨0, "computer"⟩ := by
  refine ⟨rfl, by decide, by decide, ?_⟩
  obtain ⟨l', hstep, hst, -, -, -, -⟩ :=
    c2_session_exclusivity activeTestListener ⟨500, 50, [4], false, 0, 0⟩
      ⟨0, "computer"⟩ "computer" rfl rfl (by decide) (by decide) rfl
  exact ⟨l', hstep, hst⟩

/-- C4: cancelling an active session emits exactly one `RecordingEnded` with the
matching reason and the stored wake word / trigger timestamp, returns the session
to Inactive, leaves the session audio buffer empty, and produces no Completed
Audio Sample.  On a privacy-mode frame, neither the wake-word classifier's output
nor the voice-activity estimator's output influences the step (no detection or
VAD check runs), and no other event is emitted. -/
theorem c4_cancellation_clears_buffer :
    (∀ (l : Listener) (inp : FrameInput) (ar : ActiveRecording),
      inp.privacy_mode = true →
      l.recording_status = RecordingStatus.Active ar →
      l.audio_detector_data.closed = false →
      ∃ l', l.listener_step inp = Except.ok l' ∧
        newEvents l l' =
          [AudioDetectorData.RecordingEnd
            ⟨ar.recording_triggering_wake_word, ar.recording_triggering_timestamp,
             DetectionEndReason.PrivacyModeActivated⟩] ∧
        l'.recording_status = RecordingStatus.NotActive ∧
        l'.audio_buffer = [] ∧
        newSamples l l' = [] ∧
        (∀ k p, l.listener_step
            { inp with keyword_index := k, voice_probability := p }
          = l.listener_step inp)) ∧
    (∀ (l : Listener) (inp : FrameInput) (ar : ActiveRecording) (w : String),
      inp.privacy_mode = false →
      l.detect_wake_word inp.keyword_index = Except.ok (some w) →
      l.dismiss_keyword = some w →
      l.recording_status = RecordingStatus.Active ar →
      l.audio_detector_data.closed = false →
      ∃ l', l.listener_step inp = Except.ok l' ∧
        newEvents l l' =
          [AudioDetectorData.RecordingEnd
            ⟨ar.recording_triggering_wake_word, ar.recording_triggering_timestamp,
             DetectionEndReason.Dismissed⟩,
           AudioDetectorData.WakeWordDetected ⟨w, inp.ts_now⟩] ∧
        l'.recording_status = RecordingStatus.NotActive ∧
        l'.audio_buffer = [] ∧
        newSamples l l' = []) := by
  constructor
  · intro l inp ar hpriv hact hopen
    refine ⟨_, step_privacy_active_open l inp ar hpriv hact hopen, ?_, rfl, rfl, ?_, ?_⟩
    · simp [newEvents, List.drop_left]
    · simp [newSamples, List.drop_length]
    · intro k p
      rw [step_privacy_active_open l { inp with keyword_index := k, voice_probability := p }
          ar hpriv hact hopen,
        step_privacy_active_open l inp ar hpriv hact hopen]
  · intro l inp ar w hpriv hdet hdk hact hopen
    refine ⟨_, step_dismiss_active_open l inp ar w hpriv hdet hdk hact hopen, ?_, rfl, rfl, ?_⟩
    · simp [newEvents, List.append_assoc, List.drop_left]
    · simp [newSamples, List.drop_length]

/-- Witness for C4: privacy-mode cancellation of the active test session and
dismiss-keyword cancellation with "jarvis". -/
theorem c4_cancellation_clears_buffer_witness :
    (∃ l', activeTestListener.listener_step ⟨0, 900, [9], true, -1, 0⟩ = Except.ok l' ∧
      l'.recording_status = RecordingStatus.NotActive ∧ l'.audio_buffer = [] ∧
      newSamples activeTestListener l' = []) ∧
    (∃ l', activeTestListener.listener_step ⟨800, 60, [2], false, 1, 0⟩ = Except.ok l' ∧
      newEvents activeTestListener l' =
        [AudioDetectorData.RecordingEnd ⟨"computer", 0, DetectionEndReason.Dismissed⟩,
         AudioDetectorData.WakeWordDetected ⟨"jarvis", 800⟩] ∧
      l'.recording_status = RecordingStatus.NotActive ∧ l'.audio_buffer = []) := by
  constructor
  · obtain ⟨l', hstep, -, hst, hbuf, hsmp, -⟩ :=
      c4_cancellation_clears_buffer.1 activeTestListener ⟨0, 900, [9], true, -1, 0⟩
        ⟨0, "computer"⟩ rfl rfl rfl
    exact ⟨l', hstep, hst, hbuf, hsmp⟩
  · obtain ⟨l', hstep, hev, hst, hbuf, -⟩ :=
      c4_cancellation_clears_buffer.2 activeTestListener ⟨800, 60, [2], false, 1, 0⟩
        ⟨0, "computer"⟩ "jarvis" rfl (by decide) rfl rfl rfl
    exact ⟨l', hstep, hev, hst, hbuf⟩

/-- C3: no audio loss within a session.  (a) Opening a session on a frame (from
Inactive with an empty session buffer) leaves exactly that frame in the buffer and
stamps the session with this frame's timestamp; (b) while the session stays
active, each step appends exactly the processed frame; (c) when an active session
ends with reason `Finished`, exactly one Completed Audio Sample is handed to the
sample sink, carrying the buffered frames plus the final frame, the triggering
wake word, the sample rate and the trigger timestamp, and the buffer is cleared;
(d) in every step the number of samples handed off equals the number of
`RecordingEnded{Finished}` events — a sample is produced only on `Finished`,
never on cancellation. -/
theorem c3_no_audio_loss_within_session :
    (∀ (l : Listener) (inp : FrameInput) (l' : Listener) (ar' : ActiveRecording),
      l.recording_status = RecordingStatus.NotActive →
      l.audio_buffer = [] →
      l.listener_step inp = Except.ok l' →
      l'.recording_status = RecordingStatus.Active ar' →
      l'.audio_buffer = inp.audio_frame ∧
        ar'.recording_triggering_timestamp = inp.ts_now) ∧
    (∀ (l : Listener) (inp : FrameInput) (l' : Listener) (ar ar' : ActiveRecording),
      l.recording_status = RecordingStatus.Active ar →
      l.listener_step inp = Except.ok l' →
      l'.recording_status = RecordingStatus.Active ar' →
      ar' = ar ∧ l'.audio_buffer = l.audio_buffer ++ inp.audio_frame) ∧
    (∀ (l : Listener) (inp : FrameInput) (l' : Listener) (ar : ActiveRecording),
      l.recording_status = RecordingStatus.Active ar →
      l.listener_step inp = Except.ok l' →
      (newEvents l l').any isFinishedEnd = true →
      newSamples l l' =
        [⟨l.audio_buffer ++ inp.audio_frame, ar.recording_triggering_wake_word,
          l.sample_rate, ar.recording_triggering_timestamp⟩] ∧
        l'.audio_buffer = []) ∧
    (∀ (l : Listener) (inp : FrameInput) (l' : Listener),
      l.listener_step inp = Except.ok l' →
      (newSamples l l').length = ((newEvents l l').filter isFinishedEnd).length) := by
  refine ⟨?_, ?_, ?_, ?_⟩
  · intro l inp l' ar' hna hbuf hstep hact'
    exact (step_ok_facts l inp l' hstep).2.2.2.2.2 ar' hna hbuf hact'
  · intro l inp l' ar ar' hact hstep hact'
    exact (step_ok_facts l inp l' hstep).2.2.2.1 ar ar' hact hact'
  · intro l inp l' ar hact hstep hany
    exact (step_ok_facts l inp l' hstep).2.2.2.2.1 ar hact hany
  · intro l inp l' hstep
    exact (step_ok_facts l inp l' hstep).2.2.1

/-- The state the active test listener (buffer `[1, 2]`) reaches on a silent frame
at wall time 5000 / instant 4000, which finishes the session. -/
def finishStepResult : Listener :=
  { testListener with
    wake_word_buffer := testListener.wake_word_buffer.insert 4000 [7],
    emitted_events :=
      [AudioDetectorData.VoiceProbability ⟨0, 5000, 4000, true⟩,
       AudioDetectorData.RecordingEnd ⟨"computer", 0, DetectionEndReason.Finished⟩],
    audio_detector_data := ⟨false, 100,
      [AudioDetectorData.VoiceProbability ⟨0, 5000, 4000, true⟩,
       AudioDetectorData.RecordingEnd ⟨"computer", 0, DetectionEndReason.Finished⟩]⟩,
    audio_buffer := [],
    recording_status := RecordingStatus.NotActive,
    emitted_samples := [⟨[1, 2, 7], "computer", 16000, 0⟩],
    audio_sample_sender := ⟨false, 100, [⟨[1, 2, 7], "computer", 16000, 0⟩]⟩,
    respeaker_commander := ⟨false, 10, [SpeakerCommand.Off]⟩ }

/-- The state the test listener reaches when keyword 0 ("computer") is matched at
wall time 100 / instant 10, opening a session. -/
def wakeNewStepResult : Listener :=
  { testListener with
    wake_word_buffer := testListener.wake_word_buffer.insert 10 [3],
    respeaker_commander := ⟨false, 10, [SpeakerCommand.Listen]⟩,
    recording_status := RecordingStatus.Active ⟨100, "computer"⟩,
    last_human_speech_detected := 10,
    emitted_events :=
      [AudioDetectorData.RecordingStarted ⟨"computer", 100⟩,
       AudioDetectorData.WakeWordDetected ⟨"computer", 100⟩,
       AudioDetectorData.VoiceProbability ⟨1, 100, 0, true⟩],
    audio_detector_data := ⟨false, 100,
      [AudioDetectorData.RecordingStarted ⟨"computer", 100⟩,
       AudioDetectorData.WakeWordDetected ⟨"computer", 100⟩,
       AudioDetectorData.VoiceProbability ⟨1, 100, 0, true⟩]⟩,
    audio_buffer := [3] }

/-- Witness for C3: a finishing step hands off exactly the session's frames, and a
session-opening step buffers exactly the triggering frame. -/
theorem c3_no_audio_loss_within_session_witness :
    (activeTestListener.listener_step ⟨5000, 4000, [7], false, -1, 0⟩
        = Except.ok finishStepResult ∧
      (newEvents activeTestListener finishStepResult).any isFinishedEnd = true ∧
      newSamples activeTestListener finishStepResult = [⟨[1, 2, 7], "computer", 16000, 0⟩] ∧
      finishStepResult.audio_buffer = []) ∧
    (testListener.listener_step ⟨100, 10, [3], false, 0, 1⟩ = Except.ok wakeNewStepResult ∧
      wakeNewStepResult.recording_status = RecordingStatus.Active ⟨100, "computer"⟩ ∧
      wakeNewStepResult.audio_buffer = [3]) := by
  have hstep1 : activeTestListener.listener_step ⟨5000, 4000, [7], false, -1, 0⟩
      = Except.ok finishStepResult := by decide
  have hany : (newEvents activeTestListener finishStepResult).any isFinishedEnd = true := by
    decide
  have hstep2 : testListener.listener_step ⟨100, 10, [3], false, 0, 1⟩
      = Except.ok wakeNewStepResult := by decide
  obtain ⟨hsmp, hbuf⟩ := c3_no_audio_loss_within_session.2.2.1 activeTestListener
    ⟨5000, 4000, [7], false, -1, 0⟩ finishStepResult ⟨0, "computer"⟩ rfl hstep1 hany
  obtain ⟨hbuf2, -⟩ := c3_no_audio_loss_within_session.1 testListener
    ⟨100, 10, [3], false, 0, 1⟩ wakeNewStepResult ⟨100, "computer"⟩ rfl rfl hstep2 rfl
  exact ⟨⟨hstep1, hany, hsmp, hbuf⟩, ⟨hstep2, rfl, hbuf2⟩⟩

/-- The state the active test listener reaches on a silent frame at wall time 1000
(1 second after the session trigger, inside the modelled 3-second grace period)
with monotonic elapsed silence of 5000 ms: the session is finished. -/
def gracePeriodBugResult : Listener :=
  { testListener with
    wake_word_buffer := testListener.wake_word_buffer.insert 5000 [7],
    emitted_events :=
      [AudioDetectorData.VoiceProbability ⟨0, 1000, 5000, true⟩,
       AudioDetectorData.RecordingEnd ⟨"computer", 0, DetectionEndReason.Finished⟩],
    audio_detector_data := ⟨false, 100,
      [AudioDetectorData.VoiceProbability ⟨0, 1000, 5000, true⟩,
       AudioDetectorData.RecordingEnd ⟨"computer", 0, DetectionEndReason.Finished⟩]⟩,
    audio_buffer := [],
    recording_status := RecordingStatus.NotActive,
    emitted_samples := [⟨[1, 2, 7], "computer", 16000, 0⟩],
    audio_sample_sender := ⟨false, 100, [⟨[1, 2, 7], "computer", 16000, 0⟩]⟩,
    respeaker_commander := ⟨false, 10, [SpeakerCommand.Off]⟩ }

/-- C1 (code bug): the initial grace period never takes effect.
`is_in_recording_initial_timeout` computes `trigger − now` (via
`signed_duration_since(ts_now)` on the trigger timestamp) and compares it against
the positive grace period, so it returns `some false` whenever `now ≥ trigger` —
including 1 second after the trigger, inside the grace period.  Consequently a
frame observed 1 s after the trigger with 5 s of monotonic silence finishes the
session (`RecordingEnded{Finished}` is emitted and the state returns to
Inactive), although the claim requires `should_continue` to be forced true there.
This contradicts the code's own comment "if we are in initial 3 seconds do not
time out". -/
theorem c1_initial_grace_period_never_forces_continue :
    (1000 : UtcTime) - (0 : UtcTime) < RECORDING_INITIAL_TIMEOUT ∧
    RecordingStatus.is_in_recording_initial_timeout
      (RecordingStatus.Active ⟨0, "computer"⟩) 1000 = some false ∧
    activeTestListener.listener_step ⟨1000, 5000, [7], false, -1, 0⟩
      = Except.ok gracePeriodBugResult ∧
    gracePeriodBugResult.recording_status = RecordingStatus.NotActive ∧
    (newEvents activeTestListener gracePeriodBugResult).any isFinishedEnd = true := by
  exact ⟨by decide, by decide, by decide, rfl, by decide⟩
